import Mathlib

/-!
Shallow embedding of the Historical Climate Analysis Engine of
`app.py` (NASA Weather Insights): the observation-set builder loop of
`get_historical_weather_nasa`, the aggregator `analyze_weather_data`,
the classifier `determine_main_condition` and the advisory generator
`generate_tip`.  Numeric values are modelled as rationals; Python's
built-in `round` (round-half-to-even) is modelled by `pyRound`;
optional record fields are `Option ℚ` (Python `None` = `none`).
-/

namespace NasaWeather

/-- Python's built-in `round` to the nearest integer, ties to even. -/
def pyRound (q : ℚ) : ℤ :=
  if q - ⌊q⌋ < 1/2 then ⌊q⌋
  else if 1/2 < q - ⌊q⌋ then ⌊q⌋ + 1
  else if ⌊q⌋ % 2 = 0 then ⌊q⌋ else ⌊q⌋ + 1

/-- Python `round(x, 1)`: round to one decimal place, ties to even. -/
def round1 (q : ℚ) : ℚ := (pyRound (q * 10) : ℚ) / 10

/-- `statistics.mean` on a list of numbers (only ever applied to
non-empty lists in the translated code). -/
def mean (l : List ℚ) : ℚ := l.sum / (l.length : ℚ)

/-- Python `min` over a non-empty list (`0` as an unreachable default
for `[]`, where Python would raise). -/
def listMin : List ℚ → ℚ
  | [] => 0
  | x :: xs => xs.foldl min x

/-- Python `max` over a non-empty list (`0` as an unreachable default
for `[]`, where Python would raise). -/
def listMax : List ℚ → ℚ
  | [] => 0
  | x :: xs => xs.foldl max x

/-- Decimal rendering of a rational that is an exact multiple of 1/10,
as Python prints such a float: integer part, a dot, one digit. -/
def fmt1 (q : ℚ) : String :=
  let n : ℤ := ⌊q * 10⌋
  let a : ℕ := n.natAbs
  let s : String := toString (a / 10) ++ "." ++ toString (a % 10)
  if n < 0 then "-" ++ s else s

/-- A Python number that is either the `int` literal `0` (used by the
`else 0` default branches) or a float: the two print differently. -/
inductive PyNum where
  | intv : ℤ → PyNum
  | floatv : ℚ → PyNum
deriving DecidableEq, Repr

/-- Numeric value of a `PyNum` (Python compares ints and floats by value). -/
def PyNum.toQ : PyNum → ℚ
  | .intv z => (z : ℚ)
  | .floatv q => q

/-- String interpolation of a `PyNum` (`f"{x}"`): ints print without a
decimal point, floats with one. -/
def PyNum.str : PyNum → String
  | .intv z => toString z
  | .floatv q => fmt1 q

/-- One per-year record built by `get_historical_weather_nasa`:
`{'year': ..., 'date': ..., 'temp_avg': ..., ..., 'precip': ...}`,
each measured field optional. -/
structure YearlyObservation where
  year : ℤ
  date : String
  temp_avg : Option ℚ
  temp_max : Option ℚ
  temp_min : Option ℚ
  wind_avg : Option ℚ
  wind_max : Option ℚ
  precip : Option ℚ
deriving DecidableEq, Repr

/-- The dictionary returned by `analyze_weather_data` (the
`probabilities` sub-dictionary inlined as four integer fields). -/
structure AnalysisResult where
  main_prediction : String
  temp_range : String
  avg_temp : ℚ
  wind_info : String
  rain_info : String
  very_hot : ℤ
  very_cold : ℤ
  very_windy : ℤ
  very_wet : ℤ
  confidence : String
deriving DecidableEq, Repr

/-- `[d['temp_avg'] for d in historical_data if d.get('temp_avg') is not None]` -/
def valid_temps_avg (l : List YearlyObservation) : List ℚ :=
  l.filterMap (fun d => d.temp_avg)

/-- `[d['temp_max'] for d in historical_data if d.get('temp_max') is not None]` -/
def valid_temps_max (l : List YearlyObservation) : List ℚ :=
  l.filterMap (fun d => d.temp_max)

/-- `[d['temp_min'] for d in historical_data if d.get('temp_min') is not None]` -/
def valid_temps_min (l : List YearlyObservation) : List ℚ :=
  l.filterMap (fun d => d.temp_min)

/-- `[d['wind_avg'] for d in historical_data if d.get('wind_avg') is not None]` -/
def valid_winds_avg (l : List YearlyObservation) : List ℚ :=
  l.filterMap (fun d => d.wind_avg)

/-- `[d['wind_max'] for d in historical_data if d.get('wind_max') is not None]` -/
def valid_winds_max (l : List YearlyObservation) : List ℚ :=
  l.filterMap (fun d => d.wind_max)

/-- `[d['precip'] for d in historical_data if d.get('precip') is not None]` -/
def valid_precip (l : List YearlyObservation) : List ℚ :=
  l.filterMap (fun d => d.precip)

/-- `avg_temp = round(mean(valid_temps_avg), 1)` -/
def avg_temp (l : List YearlyObservation) : ℚ :=
  round1 (mean (valid_temps_avg l))

/-- `min_temp = round(min(valid_temps_min), 1) if valid_temps_min else avg_temp` -/
def min_temp (l : List YearlyObservation) : ℚ :=
  if valid_temps_min l ≠ [] then round1 (listMin (valid_temps_min l)) else avg_temp l

/-- `max_temp = round(max(valid_temps_max), 1) if valid_temps_max else avg_temp` -/
def max_temp (l : List YearlyObservation) : ℚ :=
  if valid_temps_max l ≠ [] then round1 (listMax (valid_temps_max l)) else avg_temp l

/-- `avg_wind = round(mean(valid_winds_avg), 1) if valid_winds_avg else 0`
(the default branch yields the Python int `0`). -/
def avg_wind (l : List YearlyObservation) : PyNum :=
  if valid_winds_avg l ≠ [] then .floatv (round1 (mean (valid_winds_avg l))) else .intv 0

/-- `max_wind = round(max(valid_winds_max), 1) if valid_winds_max else 0` -/
def max_wind (l : List YearlyObservation) : PyNum :=
  if valid_winds_max l ≠ [] then .floatv (round1 (listMax (valid_winds_max l))) else .intv 0

/-- `avg_rain = round(mean(valid_precip), 1) if valid_precip else 0` -/
def avg_rain (l : List YearlyObservation) : PyNum :=
  if valid_precip l ≠ [] then .floatv (round1 (mean (valid_precip l))) else .intv 0

/-- `max_rain = round(max(valid_precip), 1) if valid_precip else 0` -/
def max_rain (l : List YearlyObservation) : PyNum :=
  if valid_precip l ≠ [] then .floatv (round1 (listMax (valid_precip l))) else .intv 0

/-- `determine_main_condition(avg_temp, max_temp, avg_rain, max_wind)`:
the ordered first-match-wins rule chain. -/
def determine_main_condition (avgT maxT avgRain maxWind : ℚ) : String :=
  if 10 < avgRain then "Rainy"
  else if 32 < maxT then "Hot"
  else if avgT < 10 then "Cold"
  else if 12 < maxWind then "Windy"
  else if 18 ≤ avgT ∧ avgT ≤ 25 then "Pleasant"
  else if 25 < avgT then "Warm"
  else "Cool"

/-- `total_days = len(historical_data)` -/
def total_days (l : List YearlyObservation) : ℕ := l.length

/-- `round((sum(1 for t in valid_temps_max if t > 30) / total_days) * 100) if total_days > 0 else 0` -/
def prob_very_hot (l : List YearlyObservation) : ℤ :=
  if 0 < total_days l then
    pyRound ((((valid_temps_max l).countP (fun t => decide (30 < t)) : ℚ) / (total_days l : ℚ)) * 100)
  else 0

/-- `round((sum(1 for t in valid_temps_min if t < 10) / total_days) * 100) if total_days > 0 else 0` -/
def prob_very_cold (l : List YearlyObservation) : ℤ :=
  if 0 < total_days l then
    pyRound ((((valid_temps_min l).countP (fun t => decide (t < 10)) : ℚ) / (total_days l : ℚ)) * 100)
  else 0

/-- `round((sum(1 for w in valid_winds_max if w > 10) / total_days) * 100) if total_days > 0 else 0` -/
def prob_very_windy (l : List YearlyObservation) : ℤ :=
  if 0 < total_days l then
    pyRound ((((valid_winds_max l).countP (fun w => decide (10 < w)) : ℚ) / (total_days l : ℚ)) * 100)
  else 0

/-- `round((sum(1 for r in valid_precip if r > 10) / total_days) * 100) if total_days > 0 else 0` -/
def prob_very_wet (l : List YearlyObservation) : ℤ :=
  if 0 < total_days l then
    pyRound ((((valid_precip l).countP (fun r => decide (10 < r)) : ℚ) / (total_days l : ℚ)) * 100)
  else 0

/-- `analyze_weather_data(historical_data)`: `None` for an empty list or
when no record has a `temp_avg`; otherwise the populated results dict. -/
def analyze_weather_data (l : List YearlyObservation) : Option AnalysisResult :=
  if l = [] then none
  else if valid_temps_avg l = [] then none
  else some
    { main_prediction :=
        determine_main_condition (avg_temp l) (max_temp l) (avg_rain l).toQ (max_wind l).toQ
      temp_range := fmt1 (min_temp l) ++ "°C - " ++ fmt1 (max_temp l) ++ "°C"
      avg_temp := avg_temp l
      wind_info := (avg_wind l).str ++ " m/s (max: " ++ (max_wind l).str ++ " m/s)"
      rain_info := (avg_rain l).str ++ " mm (max: " ++ (max_rain l).str ++ " mm)"
      very_hot := prob_very_hot l
      very_cold := prob_very_cold l
      very_windy := prob_very_windy l
      very_wet := prob_very_wet l
      confidence := toString (total_days l) ++ " years of NASA data" }

/-- `generate_tip(main_prediction, temp_range, rain_info)`: the fixed
advisory lookup with its generic fallback. -/
def generate_tip (mainPrediction tempRange rainInfo : String) : String :=
  if mainPrediction = "Hot" then
    "Hot day ahead (" ++ tempRange ++ "). Drink water often, wear light clothes, and avoid too much sun."
  else if mainPrediction = "Warm" then
    "Warm and comfy (" ++ tempRange ++ "). Great for outdoor stuff, just stay hydrated."
  else if mainPrediction = "Pleasant" then
    "Perfect day (" ++ tempRange ++ "). Ideal for outdoor plans!"
  else if mainPrediction = "Cool" then
    "Cool temperatures (" ++ tempRange ++ "). A light jacket should be fine."
  else if mainPrediction = "Cold" then
    "Cold weather (" ++ tempRange ++ "). Bundle up properly."
  else if mainPrediction = "Rainy" then
    "Expect rain (" ++ rainInfo ++ "). Carry an umbrella or raincoat."
  else if mainPrediction = "Windy" then
    "Strong winds expected. Be careful with outdoor setups or travel."
  else "Check the weather before heading out."

/-- The six per-date series of the NASA POWER response
(`data['properties']['parameter']`), each a dictionary from date string
to value; `none` models an absent key. -/
structure ParamsData where
  T2M : String → Option ℚ
  T2M_MAX : String → Option ℚ
  T2M_MIN : String → Option ℚ
  WS10M : String → Option ℚ
  WS10M_MAX : String → Option ℚ
  PRECTOTCORR : String → Option ℚ

/-- Python `f"{n:02d}"` for a natural number. -/
def pad2 (n : ℕ) : String :=
  if n < 10 then "0" ++ toString n else toString n

/-- `date_str = f"{year}{month:02d}{day:02d}"` -/
def dateStr (year : ℤ) (month day : ℕ) : String :=
  toString year ++ pad2 month ++ pad2 day

/-- The record-building loop of `get_historical_weather_nasa` (lines
109–125): one record per year of `range(start_year, end_year + 1)`
whose date string is a key of the `T2M` series. -/
def build_observation_set (pd : ParamsData) (startYear endYear : ℤ) (month day : ℕ) :
    List YearlyObservation :=
  (List.range (endYear + 1 - startYear).toNat).filterMap (fun (i : ℕ) =>
    if (pd.T2M (dateStr (startYear + (i : ℤ)) month day)).isSome then
      some { year := startYear + (i : ℤ)
             date := dateStr (startYear + (i : ℤ)) month day
             temp_avg := pd.T2M (dateStr (startYear + (i : ℤ)) month day)
             temp_max := pd.T2M_MAX (dateStr (startYear + (i : ℤ)) month day)
             temp_min := pd.T2M_MIN (dateStr (startYear + (i : ℤ)) month day)
             wind_avg := pd.WS10M (dateStr (startYear + (i : ℤ)) month day)
             wind_max := pd.WS10M_MAX (dateStr (startYear + (i : ℤ)) month day)
             precip := pd.PRECTOTCORR (dateStr (startYear + (i : ℤ)) month day) }
    else none)

/-- Spec §8 Scenario A, year 1: temp_avg 20, temp_max 25, temp_min 15,
wind_avg 3, wind_max 6, precip 1. -/
def obsA1 : YearlyObservation :=
  ⟨2020, "20200101", some 20, some 25, some 15, some 3, some 6, some 1⟩

/-- Spec §8 Scenario A, year 2. -/
def obsA2 : YearlyObservation :=
  ⟨2021, "20210101", some 22, some 26, some 16, some 4, some 7, some 2⟩

/-- Spec §8 Scenario A, year 3. -/
def obsA3 : YearlyObservation :=
  ⟨2022, "20220101", some 24, some 27, some 17, some 5, some 8, some 1⟩

/-- Spec §8 Scenario A: three complete years of observations. -/
def scenarioA : List YearlyObservation := [obsA1, obsA2, obsA3]

/-- A record whose only present field is `temp_avg` (= 20). -/
def obsOnlyTempAvg : YearlyObservation :=
  ⟨2020, "20200101", some 20, none, none, none, none, none⟩

/-- A record with every measured field absent. -/
def obsAllNone : YearlyObservation :=
  ⟨2021, "20210101", none, none, none, none, none, none⟩

/-- A one-record set where every secondary group is entirely absent. -/
def onlyTempAvgSet : List YearlyObservation := [obsOnlyTempAvg]

/-- A two-record set: one complete year plus one year with no data at all. -/
def withEmptyYearSet : List YearlyObservation := [obsA1, obsAllNone]

/-- Modelled from the spec: `confidence_note` is described as the "count
of how many years contributed", read as the number of records whose data
entered the computed statistics, i.e. records with at least one present
measured field.  (The code itself reports `len(historical_data)`.) -/
def contributing_years (l : List YearlyObservation) : ℕ :=
  l.countP (fun d => d.temp_avg.isSome || d.temp_max.isSome || d.temp_min.isSome ||
    d.wind_avg.isSome || d.wind_max.isSome || d.precip.isSome)

/-! ## Helper lemmas -/

theorem floor_le_pyRound (q : ℚ) : ⌊q⌋ ≤ pyRound q := by
  rw [pyRound]
  split_ifs <;> omega

theorem pyRound_le_ceil (q : ℚ) : pyRound q ≤ ⌈q⌉ := by
  rw [pyRound]
  split_ifs with h1 h2 h3
  · exact Int.floor_le_ceil q
  · rw [Int.add_one_le_iff, Int.lt_ceil]
    have := Int.floor_le q
    linarith
  · exact Int.floor_le_ceil q
  · rw [Int.add_one_le_iff, Int.lt_ceil]
    have h : (1:ℚ)/2 = q - ⌊q⌋ := le_antisymm (not_lt.mp h1) (not_lt.mp h2)
    linarith

theorem pyRound_nonneg {q : ℚ} (h : 0 ≤ q) : 0 ≤ pyRound q :=
  le_trans (Int.le_floor.mpr (by exact_mod_cast h)) (floor_le_pyRound q)

theorem pyRound_le_of_le {q : ℚ} {n : ℤ} (h : q ≤ n) : pyRound q ≤ n :=
  le_trans (pyRound_le_ceil q) (Int.ceil_le.mpr h)

theorem pyRound_zero : pyRound 0 = 0 := by norm_num [pyRound]

theorem prob_formula_bounds (c n : ℕ) (hcn : c ≤ n) (hn : 0 < n) :
    0 ≤ pyRound ((c : ℚ) / (n : ℚ) * 100) ∧ pyRound ((c : ℚ) / (n : ℚ) * 100) ≤ 100 := by
  have hn' : (0 : ℚ) < (n : ℚ) := by exact_mod_cast hn
  have h0 : (0 : ℚ) ≤ (c : ℚ) / (n : ℚ) * 100 := by positivity
  have h1 : (c : ℚ) / (n : ℚ) ≤ 1 := (div_le_one hn').mpr (by exact_mod_cast hcn)
  have h2 : (c : ℚ) / (n : ℚ) * 100 ≤ ((100 : ℤ) : ℚ) := by
    push_cast
    nlinarith
  exact ⟨pyRound_nonneg h0, pyRound_le_of_le h2⟩

theorem analyze_eq_some (l : List YearlyObservation)
    (h1 : l ≠ []) (h2 : valid_temps_avg l ≠ []) :
    analyze_weather_data l = some
      { main_prediction :=
          determine_main_condition (avg_temp l) (max_temp l) (avg_rain l).toQ (max_wind l).toQ
        temp_range := fmt1 (min_temp l) ++ "°C - " ++ fmt1 (max_temp l) ++ "°C"
        avg_temp := avg_temp l
        wind_info := (avg_wind l).str ++ " m/s (max: " ++ (max_wind l).str ++ " m/s)"
        rain_info := (avg_rain l).str ++ " mm (max: " ++ (max_rain l).str ++ " mm)"
        very_hot := prob_very_hot l
        very_cold := prob_very_cold l
        very_windy := prob_very_windy l
        very_wet := prob_very_wet l
        confidence := toString (total_days l) ++ " years of NASA data" } := by
  rw [analyze_weather_data, if_neg h1, if_neg h2]

/-! ## Claim theorems -/

/-- C1: `determine_main_condition` is total — it always returns one of the
seven labels — and the ordered rules are evaluated first-match-wins:
`avg_rain > 10` gives "Rainy"; else `max_temp > 32` gives "Hot"; else
`avg_temp < 10` gives "Cold"; else `max_wind > 12` gives "Windy"; else
`avg_temp ∈ [18, 25]` gives "Pleasant"; else `avg_temp > 25` gives
"Warm"; else "Cool". -/
theorem determine_main_condition_first_match (avgT maxT avgRain maxWind : ℚ) :
    determine_main_condition avgT maxT avgRain maxWind ∈
      ["Rainy", "Hot", "Cold", "Windy", "Pleasant", "Warm", "Cool"] ∧
    (10 < avgRain → determine_main_condition avgT maxT avgRain maxWind = "Rainy") ∧
    (¬ 10 < avgRain → 32 < maxT →
      determine_main_condition avgT maxT avgRain maxWind = "Hot") ∧
    (¬ 10 < avgRain → ¬ 32 < maxT → avgT < 10 →
      determine_main_condition avgT maxT avgRain maxWind = "Cold") ∧
    (¬ 10 < avgRain → ¬ 32 < maxT → ¬ avgT < 10 → 12 < maxWind →
      determine_main_condition avgT maxT avgRain maxWind = "Windy") ∧
    (¬ 10 < avgRain → ¬ 32 < maxT → ¬ avgT < 10 → ¬ 12 < maxWind →
      18 ≤ avgT → avgT ≤ 25 →
      determine_main_condition avgT maxT avgRain maxWind = "Pleasant") ∧
    (¬ 10 < avgRain → ¬ 32 < maxT → ¬ avgT < 10 → ¬ 12 < maxWind →
      ¬ (18 ≤ avgT ∧ avgT ≤ 25) → 25 < avgT →
      determine_main_condition avgT maxT avgRain maxWind = "Warm") ∧
    (¬ 10 < avgRain → ¬ 32 < maxT → ¬ avgT < 10 → ¬ 12 < maxWind →
      ¬ (18 ≤ avgT ∧ avgT ≤ 25) → ¬ 25 < avgT →
      determine_main_condition avgT maxT avgRain maxWind = "Cool") := by
  rw [determine_main_condition]
  split_ifs <;> simp_all

/-- C1 witness: at (5, 8, 0, 3) the third rule fires and gives "Cold". -/
theorem determine_main_condition_first_match_witness :
    determine_main_condition 5 8 0 3 = "Cold" :=
  (determine_main_condition_first_match 5 8 0 3).2.2.2.1
    (by norm_num) (by norm_num) (by norm_num)

/-- C7: on Scenario A (temp_avg [20, 22, 24], temp_max [25, 26, 27],
temp_min [15, 16, 17], wind_avg [3, 4, 5], wind_max [6, 7, 8],
precip [1, 2, 1]) the analysis yields avg_temp 22.0, temp_range
"15.0°C - 27.0°C", main_prediction "Pleasant" and 0% probabilities for
very-hot and very-cold (the full result record is computed here). -/
theorem analyze_scenarioA :
    analyze_weather_data scenarioA =
      some ⟨"Pleasant", "15.0°C - 27.0°C", 22, "4.0 m/s (max: 8.0 m/s)",
            "1.3 mm (max: 2.0 mm)", 0, 0, 0, 0, "3 years of NASA data"⟩ := by
  have h1 : valid_temps_avg scenarioA = [20, 22, 24] := by
    simp [valid_temps_avg, scenarioA, obsA1, obsA2, obsA3]
  have h2 : valid_temps_max scenarioA = [25, 26, 27] := by
    simp [valid_temps_max, scenarioA, obsA1, obsA2, obsA3]
  have h3 : valid_temps_min scenarioA = [15, 16, 17] := by
    simp [valid_temps_min, scenarioA, obsA1, obsA2, obsA3]
  have h4 : valid_winds_avg scenarioA = [3, 4, 5] := by
    simp [valid_winds_avg, scenarioA, obsA1, obsA2, obsA3]
  have h5 : valid_winds_max scenarioA = [6, 7, 8] := by
    simp [valid_winds_max, scenarioA, obsA1, obsA2, obsA3]
  have h6 : valid_precip scenarioA = [1, 2, 1] := by
    simp [valid_precip, scenarioA, obsA1, obsA2, obsA3]
  have ht : total_days scenarioA = 3 := rfl
  have hat : avg_temp scenarioA = 22 := by
    rw [avg_temp, h1]; norm_num [mean, round1, pyRound]
  have hmin : min_temp scenarioA = 15 := by
    rw [min_temp, h3, if_pos (by simp : ([15, 16, 17] : List ℚ) ≠ [])]
    norm_num [listMin, round1, pyRound, min_def]
  have hmax : max_temp scenarioA = 27 := by
    rw [max_temp, h2, if_pos (by simp : ([25, 26, 27] : List ℚ) ≠ [])]
    norm_num [listMax, round1, pyRound, max_def]
  have hwa : avg_wind scenarioA = .floatv 4 := by
    rw [avg_wind, h4, if_pos (by simp : ([3, 4, 5] : List ℚ) ≠ [])]
    norm_num [mean, round1, pyRound]
  have hwm : max_wind scenarioA = .floatv 8 := by
    rw [max_wind, h5, if_pos (by simp : ([6, 7, 8] : List ℚ) ≠ [])]
    norm_num [listMax, round1, pyRound, max_def]
  have hra : avg_rain scenarioA = .floatv (13/10) := by
    rw [avg_rain, h6, if_pos (by simp : ([1, 2, 1] : List ℚ) ≠ [])]
    norm_num [mean, round1, pyRound]
  have hrm : max_rain scenarioA = .floatv 2 := by
    rw [max_rain, h6, if_pos (by simp : ([1, 2, 1] : List ℚ) ≠ [])]
    norm_num [listMax, round1, pyRound, max_def]
  have hph : prob_very_hot scenarioA = 0 := by
    rw [prob_very_hot, h2, ht]
    norm_num [List.countP, List.countP.go, pyRound]
  have hpc : prob_very_cold scenarioA = 0 := by
    rw [prob_very_cold, h3, ht]
    norm_num [List.countP, List.countP.go, pyRound]
  have hpw : prob_very_windy scenarioA = 0 := by
    rw [prob_very_windy, h5, ht]
    norm_num [List.countP, List.countP.go, pyRound]
  have hpr : prob_very_wet scenarioA = 0 := by
    rw [prob_very_wet, h6, ht]
    norm_num [List.countP, List.countP.go, pyRound]
  rw [analyze_weather_data,
    if_neg (by simp [scenarioA] : ¬ scenarioA = []),
    if_neg (by rw [h1]; simp : ¬ valid_temps_avg scenarioA = []),
    hat, hmin, hmax, hwa, hwm, hra, hrm, hph, hpc, hpw, hpr, ht]
  simp only [PyNum.toQ, PyNum.str, Option.some.injEq, AnalysisResult.mk.injEq]
  and_intros <;> first
    | trivial
    | (norm_num [determine_main_condition]; done)
    | (norm_num [fmt1]; rfl)

/-- C2: `analyze_weather_data` returns `none` ("no result") exactly when
the observation list is empty or every entry's `temp_avg` is absent; in
every other case it returns a populated result. -/
theorem analyze_none_iff (l : List YearlyObservation) :
    analyze_weather_data l = none ↔ (l = [] ∨ ∀ d ∈ l, d.temp_avg = none) := by
  rw [analyze_weather_data]
  split_ifs with h1 h2
  · simp [h1]
  · simp only [valid_temps_avg] at h2
    refine iff_of_true rfl (Or.inr ?_)
    intro d hd
    simpa using List.filterMap_eq_nil_iff.mp h2 d hd
  · simp only [valid_temps_avg] at h2
    refine iff_of_false (by simp) ?_
    rintro (hl | hall)
    · exact h1 hl
    · exact h2 (List.filterMap_eq_nil_iff.mpr (fun d hd => by simpa using hall d hd))

/-- C3 counterexample: in a set whose only record carries just
`temp_avg = 20`, the temperature-min and temperature-max groups are
entirely absent, yet their statistics default to `avg_temp` (20.0), not
to zero — the produced `temp_range` is "20.0°C - 20.0°C".  (The wind and
precipitation groups do default to zero.) -/
theorem secondary_default_is_avg_temp_not_zero :
    valid_temps_min onlyTempAvgSet = [] ∧
    valid_temps_max onlyTempAvgSet = [] ∧
    min_temp onlyTempAvgSet = 20 ∧
    max_temp onlyTempAvgSet = 20 ∧
    ¬ min_temp onlyTempAvgSet = 0 ∧
    ¬ max_temp onlyTempAvgSet = 0 ∧
    analyze_weather_data onlyTempAvgSet =
      some ⟨"Pleasant", "20.0°C - 20.0°C", 20, "0 m/s (max: 0 m/s)",
            "0 mm (max: 0 mm)", 0, 0, 0, 0, "1 years of NASA data"⟩ := by
  have h1 : valid_temps_avg onlyTempAvgSet = [20] := by
    simp [valid_temps_avg, onlyTempAvgSet, obsOnlyTempAvg]
  have h2 : valid_temps_max onlyTempAvgSet = [] := by
    simp [valid_temps_max, onlyTempAvgSet, obsOnlyTempAvg]
  have h3 : valid_temps_min onlyTempAvgSet = [] := by
    simp [valid_temps_min, onlyTempAvgSet, obsOnlyTempAvg]
  have h4 : valid_winds_avg onlyTempAvgSet = [] := by
    simp [valid_winds_avg, onlyTempAvgSet, obsOnlyTempAvg]
  have h5 : valid_winds_max onlyTempAvgSet = [] := by
    simp [valid_winds_max, onlyTempAvgSet, obsOnlyTempAvg]
  have h6 : valid_precip onlyTempAvgSet = [] := by
    simp [valid_precip, onlyTempAvgSet, obsOnlyTempAvg]
  have ht : total_days onlyTempAvgSet = 1 := rfl
  have hat : avg_temp onlyTempAvgSet = 20 := by
    rw [avg_temp, h1]; norm_num [mean, round1, pyRound]
  have hmin : min_temp onlyTempAvgSet = 20 := by
    rw [min_temp, h3]; simpa using hat
  have hmax : max_temp onlyTempAvgSet = 20 := by
    rw [max_temp, h2]; simpa using hat
  have hwa : avg_wind onlyTempAvgSet = .intv 0 := by rw [avg_wind, h4]; simp
  have hwm : max_wind onlyTempAvgSet = .intv 0 := by rw [max_wind, h5]; simp
  have hra : avg_rain onlyTempAvgSet = .intv 0 := by rw [avg_rain, h6]; simp
  have hrm : max_rain onlyTempAvgSet = .intv 0 := by rw [max_rain, h6]; simp
  have hph : prob_very_hot onlyTempAvgSet = 0 := by
    rw [prob_very_hot, h2, ht]; norm_num [List.countP, List.countP.go, pyRound]
  have hpc : prob_very_cold onlyTempAvgSet = 0 := by
    rw [prob_very_cold, h3, ht]; norm_num [List.countP, List.countP.go, pyRound]
  have hpw : prob_very_windy onlyTempAvgSet = 0 := by
    rw [prob_very_windy, h5, ht]; norm_num [List.countP, List.countP.go, pyRound]
  have hpr : prob_very_wet onlyTempAvgSet = 0 := by
    rw [prob_very_wet, h6, ht]; norm_num [List.countP, List.countP.go, pyRound]
  refine ⟨h3, h2, hmin, hmax, by rw [hmin]; norm_num, by rw [hmax]; norm_num, ?_⟩
  rw [analyze_weather_data,
    if_neg (by simp [onlyTempAvgSet] : ¬ onlyTempAvgSet = []),
    if_neg (by rw [h1]; simp : ¬ valid_temps_avg onlyTempAvgSet = []),
    hat, hmin, hmax, hwa, hwm, hra, hrm, hph, hpc, hpw, hpr, ht]
  simp only [PyNum.toQ, PyNum.str, Option.some.injEq, AnalysisResult.mk.injEq]
  and_intros <;> first
    | trivial
    | (norm_num [determine_main_condition]; done)
    | (norm_num [fmt1]; rfl)

/-- C3 amended: for every accepted observation set, an entirely absent
wind-average, wind-max or precipitation group defaults its statistics to
the integer zero, while entirely absent temperature-min/temperature-max
groups default to `avg_temp` (not zero); in all cases the analysis still
produces a result. -/
theorem secondary_group_defaults (l : List YearlyObservation)
    (h1 : l ≠ []) (h2 : valid_temps_avg l ≠ []) :
    (valid_winds_avg l = [] → avg_wind l = .intv 0) ∧
    (valid_winds_max l = [] → max_wind l = .intv 0) ∧
    (valid_precip l = [] → avg_rain l = .intv 0 ∧ max_rain l = .intv 0) ∧
    (valid_temps_min l = [] → min_temp l = avg_temp l) ∧
    (valid_temps_max l = [] → max_temp l = avg_temp l) ∧
    (analyze_weather_data l).isSome = true := by
  refine ⟨fun h => ?_, fun h => ?_, fun h => ⟨?_, ?_⟩, fun h => ?_, fun h => ?_, ?_⟩
  · rw [avg_wind, h]; simp
  · rw [max_wind, h]; simp
  · rw [avg_rain, h]; simp
  · rw [max_rain, h]; simp
  · rw [min_temp, h]; simp
  · rw [max_temp, h]; simp
  · rw [analyze_weather_data, if_neg h1, if_neg h2]
    rfl

/-- C3 amended witness: the one-record set with only `temp_avg` present
satisfies the hypotheses, its wind/precipitation statistics are the
integer zero, its temp-min statistic equals `avg_temp`, and the analysis
succeeds. -/
theorem secondary_group_defaults_witness :
    onlyTempAvgSet ≠ [] ∧ valid_temps_avg onlyTempAvgSet ≠ [] ∧
    avg_wind onlyTempAvgSet = .intv 0 ∧ max_wind onlyTempAvgSet = .intv 0 ∧
    avg_rain onlyTempAvgSet = .intv 0 ∧ max_rain onlyTempAvgSet = .intv 0 ∧
    min_temp onlyTempAvgSet = avg_temp onlyTempAvgSet ∧
    max_temp onlyTempAvgSet = avg_temp onlyTempAvgSet ∧
    (analyze_weather_data onlyTempAvgSet).isSome = true := by
  have hne : onlyTempAvgSet ≠ [] := by simp [onlyTempAvgSet]
  have hta : valid_temps_avg onlyTempAvgSet ≠ [] := by
    simp [valid_temps_avg, onlyTempAvgSet, obsOnlyTempAvg]
  have H := secondary_group_defaults onlyTempAvgSet hne hta
  have hw : valid_winds_avg onlyTempAvgSet = [] := by
    simp [valid_winds_avg, onlyTempAvgSet, obsOnlyTempAvg]
  have hwm : valid_winds_max onlyTempAvgSet = [] := by
    simp [valid_winds_max, onlyTempAvgSet, obsOnlyTempAvg]
  have hp : valid_precip onlyTempAvgSet = [] := by
    simp [valid_precip, onlyTempAvgSet, obsOnlyTempAvg]
  have hmin : valid_temps_min onlyTempAvgSet = [] := by
    simp [valid_temps_min, onlyTempAvgSet, obsOnlyTempAvg]
  have hmax : valid_temps_max onlyTempAvgSet = [] := by
    simp [valid_temps_max, onlyTempAvgSet, obsOnlyTempAvg]
  exact ⟨hne, hta, H.1 hw, H.2.1 hwm, (H.2.2.1 hp).1, (H.2.2.1 hp).2,
    H.2.2.2.1 hmin, H.2.2.2.2.1 hmax, H.2.2.2.2.2⟩

/-- C4: for every accepted observation set, each extreme-event
probability is the threshold-crossing count within the field's valid
subset, divided by the total record count, times 100, rounded to an
integer; and the code's probability expressions yield 0 whenever the
total observation count is zero. -/
theorem analyze_extreme_probabilities (l l' : List YearlyObservation)
    (h1 : l ≠ []) (h2 : valid_temps_avg l ≠ []) (h0 : total_days l' = 0) :
    (∃ r, analyze_weather_data l = some r ∧
      r.very_hot =
        pyRound (((valid_temps_max l).countP (fun t => decide (30 < t)) : ℚ) /
          (total_days l : ℚ) * 100) ∧
      r.very_cold =
        pyRound (((valid_temps_min l).countP (fun t => decide (t < 10)) : ℚ) /
          (total_days l : ℚ) * 100) ∧
      r.very_windy =
        pyRound (((valid_winds_max l).countP (fun w => decide (10 < w)) : ℚ) /
          (total_days l : ℚ) * 100) ∧
      r.very_wet =
        pyRound (((valid_precip l).countP (fun x => decide (10 < x)) : ℚ) /
          (total_days l : ℚ) * 100)) ∧
    (prob_very_hot l' = 0 ∧ prob_very_cold l' = 0 ∧
      prob_very_windy l' = 0 ∧ prob_very_wet l' = 0) := by
  have hpos : 0 < total_days l := by
    rw [total_days]; exact List.length_pos.mpr h1
  constructor
  · refine ⟨_, analyze_eq_some l h1 h2, ?_, ?_, ?_, ?_⟩
    · show prob_very_hot l = _
      rw [prob_very_hot, if_pos hpos]
    · show prob_very_cold l = _
      rw [prob_very_cold, if_pos hpos]
    · show prob_very_windy l = _
      rw [prob_very_windy, if_pos hpos]
    · show prob_very_wet l = _
      rw [prob_very_wet, if_pos hpos]
  · simp [prob_very_hot, prob_very_cold, prob_very_windy, prob_very_wet, h0]

/-- C4 witness: Scenario A satisfies the hypotheses, and on the empty
list (total count 0) every probability expression is 0. -/
theorem analyze_extreme_probabilities_witness :
    scenarioA ≠ [] ∧ total_days ([] : List YearlyObservation) = 0 ∧
    prob_very_hot ([] : List YearlyObservation) = 0 := by
  have H := analyze_extreme_probabilities scenarioA [] (by simp [scenarioA])
    (by simp [valid_temps_avg, scenarioA, obsA1, obsA2, obsA3]) rfl
  exact ⟨by simp [scenarioA], rfl, H.2.1⟩

/-- C5: for every accepted observation set, the four probability values
are integers in [0, 100], and a field absent from every entry has
probability exactly 0. -/
theorem analyze_probabilities_in_range (l : List YearlyObservation)
    (h1 : l ≠ []) (h2 : valid_temps_avg l ≠ []) :
    ∃ r, analyze_weather_data l = some r ∧
      (0 ≤ r.very_hot ∧ r.very_hot ≤ 100) ∧
      (0 ≤ r.very_cold ∧ r.very_cold ≤ 100) ∧
      (0 ≤ r.very_windy ∧ r.very_windy ≤ 100) ∧
      (0 ≤ r.very_wet ∧ r.very_wet ≤ 100) ∧
      (valid_temps_max l = [] → r.very_hot = 0) ∧
      (valid_temps_min l = [] → r.very_cold = 0) ∧
      (valid_winds_max l = [] → r.very_windy = 0) ∧
      (valid_precip l = [] → r.very_wet = 0) := by
  have hpos : 0 < total_days l := by
    rw [total_days]; exact List.length_pos.mpr h1
  have hlen : ∀ f : YearlyObservation → Option ℚ,
      ∀ p : ℚ → Bool, (l.filterMap f).countP p ≤ total_days l := fun f p =>
    le_trans (List.countP_le_length p) (List.length_filterMap_le f l)
  have hzero : ∀ p : ℚ → Bool,
      pyRound ((List.countP p [] : ℚ) / (total_days l : ℚ) * 100) = 0 := by
    intro p
    simp [List.countP_nil, pyRound_zero]
  refine ⟨_, analyze_eq_some l h1 h2, ?_, ?_, ?_, ?_, ?_, ?_, ?_, ?_⟩
  · show 0 ≤ prob_very_hot l ∧ prob_very_hot l ≤ 100
    rw [prob_very_hot, if_pos hpos]
    exact prob_formula_bounds _ _ (hlen _ _) hpos
  · show 0 ≤ prob_very_cold l ∧ prob_very_cold l ≤ 100
    rw [prob_very_cold, if_pos hpos]
    exact prob_formula_bounds _ _ (hlen _ _) hpos
  · show 0 ≤ prob_very_windy l ∧ prob_very_windy l ≤ 100
    rw [prob_very_windy, if_pos hpos]
    exact prob_formula_bounds _ _ (hlen _ _) hpos
  · show 0 ≤ prob_very_wet l ∧ prob_very_wet l ≤ 100
    rw [prob_very_wet, if_pos hpos]
    exact prob_formula_bounds _ _ (hlen _ _) hpos
  · intro h
    show prob_very_hot l = 0
    rw [prob_very_hot, if_pos hpos, h]
    exact hzero _
  · intro h
    show prob_very_cold l = 0
    rw [prob_very_cold, if_pos hpos, h]
    exact hzero _
  · intro h
    show prob_very_windy l = 0
    rw [prob_very_windy, if_pos hpos, h]
    exact hzero _
  · intro h
    show prob_very_wet l = 0
    rw [prob_very_wet, if_pos hpos, h]
    exact hzero _

/-- C5 witness: the probability bounds instantiated at Scenario A. -/
theorem analyze_probabilities_in_range_witness :
    scenarioA ≠ [] ∧ valid_temps_avg scenarioA ≠ [] ∧
    (∃ r, analyze_weather_data scenarioA = some r ∧
      (0 ≤ r.very_hot ∧ r.very_hot ≤ 100) ∧
      (0 ≤ r.very_cold ∧ r.very_cold ≤ 100) ∧
      (0 ≤ r.very_windy ∧ r.very_windy ≤ 100) ∧
      (0 ≤ r.very_wet ∧ r.very_wet ≤ 100) ∧
      (valid_temps_max scenarioA = [] → r.very_hot = 0) ∧
      (valid_temps_min scenarioA = [] → r.very_cold = 0) ∧
      (valid_winds_max scenarioA = [] → r.very_windy = 0) ∧
      (valid_precip scenarioA = [] → r.very_wet = 0)) :=
  ⟨by simp [scenarioA],
   by simp [valid_temps_avg, scenarioA, obsA1, obsA2, obsA3],
   analyze_probabilities_in_range scenarioA (by simp [scenarioA])
     (by simp [valid_temps_avg, scenarioA, obsA1, obsA2, obsA3])⟩

/-- C6: validity filtering is per-field — each statistic is computed
from exactly the non-absent values of its own field (mean of each group,
min of temp-min, max of temp-max / wind-max / precip), and changing
other fields of the records (e.g. removing `wind_max`) never changes
which `temp_avg` values contribute. -/
theorem per_field_statistics (l : List YearlyObservation)
    (h1 : l ≠ []) (h2 : valid_temps_avg l ≠ []) :
    ∃ r, analyze_weather_data l = some r ∧
      r.avg_temp = round1 ((l.filterMap (fun d => d.temp_avg)).sum /
        ((l.filterMap (fun d => d.temp_avg)).length : ℚ)) ∧
      (valid_temps_min l ≠ [] →
        min_temp l = round1 (listMin (l.filterMap (fun d => d.temp_min)))) ∧
      (valid_temps_max l ≠ [] →
        max_temp l = round1 (listMax (l.filterMap (fun d => d.temp_max)))) ∧
      (valid_winds_avg l ≠ [] →
        avg_wind l = .floatv (round1 (mean (l.filterMap (fun d => d.wind_avg))))) ∧
      (valid_winds_max l ≠ [] →
        max_wind l = .floatv (round1 (listMax (l.filterMap (fun d => d.wind_max))))) ∧
      (valid_precip l ≠ [] →
        avg_rain l = .floatv (round1 (mean (l.filterMap (fun d => d.precip)))) ∧
        max_rain l = .floatv (round1 (listMax (l.filterMap (fun d => d.precip))))) ∧
      (∀ g : YearlyObservation → YearlyObservation,
        (∀ d, (g d).temp_avg = d.temp_avg) →
        valid_temps_avg (l.map g) = valid_temps_avg l) := by
  refine ⟨_, analyze_eq_some l h1 h2, rfl, fun h => ?_, fun h => ?_, fun h => ?_,
    fun h => ?_, fun h => ⟨?_, ?_⟩, fun g hg => ?_⟩
  · rw [min_temp, if_pos h]; rfl
  · rw [max_temp, if_pos h]; rfl
  · rw [avg_wind, if_pos h]; rfl
  · rw [max_wind, if_pos h]; rfl
  · rw [avg_rain, if_pos h]; rfl
  · rw [max_rain, if_pos h]; rfl
  · rw [valid_temps_avg, valid_temps_avg, List.filterMap_map]
    simp only [Function.comp_def, hg]

/-- C6 witness: the per-field statistics instantiated at Scenario A. -/
theorem per_field_statistics_witness :
    scenarioA ≠ [] ∧ valid_temps_avg scenarioA ≠ [] ∧
    (∃ r, analyze_weather_data scenarioA = some r ∧
      r.avg_temp = round1 ((scenarioA.filterMap (fun d => d.temp_avg)).sum /
        ((scenarioA.filterMap (fun d => d.temp_avg)).length : ℚ)) ∧
      (valid_temps_min scenarioA ≠ [] →
        min_temp scenarioA = round1 (listMin (scenarioA.filterMap (fun d => d.temp_min)))) ∧
      (valid_temps_max scenarioA ≠ [] →
        max_temp scenarioA = round1 (listMax (scenarioA.filterMap (fun d => d.temp_max)))) ∧
      (valid_winds_avg scenarioA ≠ [] →
        avg_wind scenarioA = .floatv (round1 (mean (scenarioA.filterMap (fun d => d.wind_avg))))) ∧
      (valid_winds_max scenarioA ≠ [] →
        max_wind scenarioA = .floatv (round1 (listMax (scenarioA.filterMap (fun d => d.wind_max))))) ∧
      (valid_precip scenarioA ≠ [] →
        avg_rain scenarioA = .floatv (round1 (mean (scenarioA.filterMap (fun d => d.precip)))) ∧
        max_rain scenarioA = .floatv (round1 (listMax (scenarioA.filterMap (fun d => d.precip))))) ∧
      (∀ g : YearlyObservation → YearlyObservation,
        (∀ d, (g d).temp_avg = d.temp_avg) →
        valid_temps_avg (scenarioA.map g) = valid_temps_avg scenarioA)) :=
  ⟨by simp [scenarioA],
   by simp [valid_temps_avg, scenarioA, obsA1, obsA2, obsA3],
   per_field_statistics scenarioA (by simp [scenarioA])
     (by simp [valid_temps_avg, scenarioA, obsA1, obsA2, obsA3])⟩

/-- C8 counterexample: in a two-record set whose second record has no
data at all, only one year's data enters the statistics, yet the
result's confidence string reports the total record count, "2 years of
NASA data". -/
theorem confidence_counts_all_records :
    analyze_weather_data withEmptyYearSet =
      some ⟨"Pleasant", "15.0°C - 25.0°C", 20, "3.0 m/s (max: 6.0 m/s)",
            "1.0 mm (max: 1.0 mm)", 0, 0, 0, 0, "2 years of NASA data"⟩ ∧
    contributing_years withEmptyYearSet = 1 ∧
    ¬ "2 years of NASA data" =
      toString (contributing_years withEmptyYearSet) ++ " years of NASA data" := by
  have h1 : valid_temps_avg withEmptyYearSet = [20] := by
    simp [valid_temps_avg, withEmptyYearSet, obsA1, obsAllNone]
  have h2 : valid_temps_max withEmptyYearSet = [25] := by
    simp [valid_temps_max, withEmptyYearSet, obsA1, obsAllNone]
  have h3 : valid_temps_min withEmptyYearSet = [15] := by
    simp [valid_temps_min, withEmptyYearSet, obsA1, obsAllNone]
  have h4 : valid_winds_avg withEmptyYearSet = [3] := by
    simp [valid_winds_avg, withEmptyYearSet, obsA1, obsAllNone]
  have h5 : valid_winds_max withEmptyYearSet = [6] := by
    simp [valid_winds_max, withEmptyYearSet, obsA1, obsAllNone]
  have h6 : valid_precip withEmptyYearSet = [1] := by
    simp [valid_precip, withEmptyYearSet, obsA1, obsAllNone]
  have ht : total_days withEmptyYearSet = 2 := rfl
  have hat : avg_temp withEmptyYearSet = 20 := by
    rw [avg_temp, h1]; norm_num [mean, round1, pyRound]
  have hmin : min_temp withEmptyYearSet = 15 := by
    rw [min_temp, h3, if_pos (by simp : ([15] : List ℚ) ≠ [])]
    norm_num [listMin, round1, pyRound]
  have hmax : max_temp withEmptyYearSet = 25 := by
    rw [max_temp, h2, if_pos (by simp : ([25] : List ℚ) ≠ [])]
    norm_num [listMax, round1, pyRound]
  have hwa : avg_wind withEmptyYearSet = .floatv 3 := by
    rw [avg_wind, h4, if_pos (by simp : ([3] : List ℚ) ≠ [])]
    norm_num [mean, round1, pyRound]
  have hwm : max_wind withEmptyYearSet = .floatv 6 := by
    rw [max_wind, h5, if_pos (by simp : ([6] : List ℚ) ≠ [])]
    norm_num [listMax, round1, pyRound]
  have hra : avg_rain withEmptyYearSet = .floatv 1 := by
    rw [avg_rain, h6, if_pos (by simp : ([1] : List ℚ) ≠ [])]
    norm_num [mean, round1, pyRound]
  have hrm : max_rain withEmptyYearSet = .floatv 1 := by
    rw [max_rain, h6, if_pos (by simp : ([1] : List ℚ) ≠ [])]
    norm_num [listMax, round1, pyRound]
  have hph : prob_very_hot withEmptyYearSet = 0 := by
    rw [prob_very_hot, h2, ht]; norm_num [List.countP, List.countP.go, pyRound]
  have hpc : prob_very_cold withEmptyYearSet = 0 := by
    rw [prob_very_cold, h3, ht]; norm_num [List.countP, List.countP.go, pyRound]
  have hpw : prob_very_windy withEmptyYearSet = 0 := by
    rw [prob_very_windy, h5, ht]; norm_num [List.countP, List.countP.go, pyRound]
  have hpr : prob_very_wet withEmptyYearSet = 0 := by
    rw [prob_very_wet, h6, ht]; norm_num [List.countP, List.countP.go, pyRound]
  have hcy : contributing_years withEmptyYearSet = 1 := rfl
  refine ⟨?_, hcy, by rw [hcy]; decide⟩
  rw [analyze_weather_data,
    if_neg (by simp [withEmptyYearSet] : ¬ withEmptyYearSet = []),
    if_neg (by rw [h1]; simp : ¬ valid_temps_avg withEmptyYearSet = []),
    hat, hmin, hmax, hwa, hwm, hra, hrm, hph, hpc, hpw, hpr, ht]
  simp only [PyNum.toQ, PyNum.str, Option.some.injEq, AnalysisResult.mk.injEq]
  and_intros <;> first
    | trivial
    | (norm_num [determine_main_condition]; done)
    | (norm_num [fmt1]; rfl)

/-- C8 amended: for every accepted observation set, the confidence note
reports the total number of observation records,
`f"{len(historical_data)} years of NASA data"`. -/
theorem confidence_reports_record_count (l : List YearlyObservation)
    (h1 : l ≠ []) (h2 : valid_temps_avg l ≠ []) :
    ∃ r, analyze_weather_data l = some r ∧
      r.confidence = toString l.length ++ " years of NASA data" :=
  ⟨_, analyze_eq_some l h1 h2, rfl⟩

/-- C8 amended witness: instantiated at the two-record set with an empty
second record. -/
theorem confidence_reports_record_count_witness :
    withEmptyYearSet ≠ [] ∧ valid_temps_avg withEmptyYearSet ≠ [] ∧
    (∃ r, analyze_weather_data withEmptyYearSet = some r ∧
      r.confidence = toString withEmptyYearSet.length ++ " years of NASA data") :=
  ⟨by simp [withEmptyYearSet],
   by simp [valid_temps_avg, withEmptyYearSet, obsA1, obsAllNone],
   confidence_reports_record_count withEmptyYearSet (by simp [withEmptyYearSet])
     (by simp [valid_temps_avg, withEmptyYearSet, obsA1, obsAllNone])⟩

/-- C9: the analysis pipeline is deterministic — the aggregator, the
classifier and the advisory generator are pure functions, so equal
inputs give equal outputs. -/
theorem analysis_deterministic (l₁ l₂ : List YearlyObservation)
    (a₁ b₁ c₁ d₁ a₂ b₂ c₂ d₂ : ℚ) (s₁ t₁ u₁ s₂ t₂ u₂ : String)
    (hl : l₁ = l₂) (ha : a₁ = a₂) (hb : b₁ = b₂) (hc : c₁ = c₂) (hd : d₁ = d₂)
    (hs : s₁ = s₂) (ht : t₁ = t₂) (hu : u₁ = u₂) :
    analyze_weather_data l₁ = analyze_weather_data l₂ ∧
    determine_main_condition a₁ b₁ c₁ d₁ = determine_main_condition a₂ b₂ c₂ d₂ ∧
    generate_tip s₁ t₁ u₁ = generate_tip s₂ t₂ u₂ := by
  subst hl ha hb hc hd hs ht hu
  exact ⟨rfl, rfl, rfl⟩

/-- C9 witness: determinism instantiated at Scenario A and concrete
classifier/advisory inputs. -/
theorem analysis_deterministic_witness :
    analyze_weather_data scenarioA = analyze_weather_data scenarioA ∧
    determine_main_condition 5 8 0 3 = determine_main_condition 5 8 0 3 ∧
    generate_tip "Cold" "5.0°C - 8.0°C" "0 mm (max: 0 mm)" =
      generate_tip "Cold" "5.0°C - 8.0°C" "0 mm (max: 0 mm)" :=
  analysis_deterministic scenarioA scenarioA 5 8 0 3 5 8 0 3
    "Cold" "5.0°C - 8.0°C" "0 mm (max: 0 mm)"
    "Cold" "5.0°C - 8.0°C" "0 mm (max: 0 mm)"
    rfl rfl rfl rfl rfl rfl rfl rfl

/-- C10: the builder loop includes a year exactly when the `T2M`
series has a value keyed by that year's date string (within the
requested year range); an included record's fields are the six series
lookups at that date string (so omitted years' other fields are
discarded with the record); and records appear in ascending year
order. -/
theorem build_observation_set_spec (pd : ParamsData)
    (startYear endYear : ℤ) (month day : ℕ) :
    (∀ y : ℤ,
      (∃ r ∈ build_observation_set pd startYear endYear month day, r.year = y) ↔
      (startYear ≤ y ∧ y ≤ endYear ∧ (pd.T2M (dateStr y month day)).isSome = true)) ∧
    (∀ r ∈ build_observation_set pd startYear endYear month day,
      r.date = dateStr r.year month day ∧
      r.temp_avg = pd.T2M (dateStr r.year month day) ∧
      r.temp_max = pd.T2M_MAX (dateStr r.year month day) ∧
      r.temp_min = pd.T2M_MIN (dateStr r.year month day) ∧
      r.wind_avg = pd.WS10M (dateStr r.year month day) ∧
      r.wind_max = pd.WS10M_MAX (dateStr r.year month day) ∧
      r.precip = pd.PRECTOTCORR (dateStr r.year month day)) ∧
    (build_observation_set pd startYear endYear month day).Pairwise
      (fun a b => a.year < b.year) := by
  refine ⟨fun y => ⟨?_, ?_⟩, ?_, ?_⟩
  · rintro ⟨r, hr, hy⟩
    rw [build_observation_set, List.mem_filterMap] at hr
    obtain ⟨i, hi, hg⟩ := hr
    rw [List.mem_range] at hi
    by_cases hs : (pd.T2M (dateStr (startYear + i) month day)).isSome
    · rw [if_pos hs] at hg
      cases hg
      have hy' : y = startYear + (i : ℤ) := by rw [← hy]
      subst hy'
      exact ⟨by omega, by omega, hs⟩
    · rw [if_neg hs] at hg
      exact absurd hg (by simp)
  · rintro ⟨hsy, hey, hsome⟩
    have hyy : startYear + (((y - startYear).toNat : ℕ) : ℤ) = y := by omega
    refine ⟨{ year := y
              date := dateStr y month day
              temp_avg := pd.T2M (dateStr y month day)
              temp_max := pd.T2M_MAX (dateStr y month day)
              temp_min := pd.T2M_MIN (dateStr y month day)
              wind_avg := pd.WS10M (dateStr y month day)
              wind_max := pd.WS10M_MAX (dateStr y month day)
              precip := pd.PRECTOTCORR (dateStr y month day) }, ?_, rfl⟩
    rw [build_observation_set, List.mem_filterMap]
    refine ⟨(y - startYear).toNat, List.mem_range.mpr (by omega), ?_⟩
    rw [hyy, if_pos hsome]
  · intro r hr
    rw [build_observation_set, List.mem_filterMap] at hr
    obtain ⟨i, hi, hg⟩ := hr
    by_cases hs : (pd.T2M (dateStr (startYear + i) month day)).isSome
    · rw [if_pos hs] at hg
      cases hg
      exact ⟨rfl, rfl, rfl, rfl, rfl, rfl, rfl⟩
    · rw [if_neg hs] at hg
      exact absurd hg (by simp)
  · rw [build_observation_set]
    refine List.Pairwise.filterMap _ (fun a b hab x hx y hy => ?_)
      (List.pairwise_lt_range _)
    by_cases hsa : (pd.T2M (dateStr (startYear + a) month day)).isSome
    · rw [if_pos hsa] at hx
      by_cases hsb : (pd.T2M (dateStr (startYear + b) month day)).isSome
      · rw [if_pos hsb] at hy
        rw [Option.mem_some_iff] at hx hy
        subst hx
        subst hy
        show startYear + (a : ℤ) < startYear + (b : ℤ)
        omega
      · rw [if_neg hsb] at hy
        exact absurd hy (by simp)
    · rw [if_neg hsa] at hx
      exact absurd hx (by simp)

end NasaWeather
